import Mathlib

/-!
# Query commands of the ibc-transfer module

A shallow embedding of `modules/apps/transfer/client/cli/query.go`: the five
query commands `denom-trace`, `denom-traces`, `params`, `escrow-address` and
`denom-hash`.

Every handler is a function of the collaborators it calls (client-context
acquisition, page-request reading, the query client, the two print methods and
`types.GetEscrowAddress`).  A run yields the value the handler returns (or the
Go run-time panic that ends it), the ordered list of the calls it made that are
observable from outside (queries sent, values handed to the printer) and the
state of the store behind the query service.
-/

namespace Transfer

/-! ## Errors, panics and results -/

/-- Go `error` values that are not nil: the taxonomy named by the specification,
and `other` for every further error (flag parsing, transport, output, ...). -/
inductive Error where
  | InvalidIdentifierError
  | MalformedTraceError
  | NotFoundError
  | InvalidArgument
  | CollisionError
  | other (msg : String)
  deriving DecidableEq, Repr

/-- Go run-time panics a handler body can raise. -/
inductive Panic where
  /-- An access `args[i]` with `len(args) = len` and `i ≥ len`. -/
  | indexOutOfRange (index len : Nat)
  /-- Field selection through a nil pointer. -/
  | nilPointerDereference
  deriving DecidableEq, Repr

/-- How a handler body ends: it returns an `error` (nil is `none`), or panics. -/
inductive Result where
  | returned (err : Option Error)
  | panicked (p : Panic)
  deriving DecidableEq, Repr

/-! ## Messages -/

/-- The pagination request read from the command flags (`query.PageRequest`). -/
structure PageRequest where
  Key : List Nat
  Offset : Nat
  Limit : Nat
  CountTotal : Bool
  Reverse : Bool
  deriving DecidableEq, Repr

/-- The pagination part of a list response (`query.PageResponse`). -/
structure PageResponse where
  NextKey : List Nat
  Total : Nat
  deriving DecidableEq, Repr

/-- Modelled from the spec: the declaration of `types.DenomTrace` is not among
the sources; a trace is an ordered sequence of `(port, channel)` hops followed
by a base denomination. -/
structure DenomTrace where
  hops : List (String × String)
  baseDenom : String
  deriving DecidableEq, Repr

/-- Modelled from the spec: the declaration of `types.Params` is not among the
sources; `ModuleParams` is a small fixed set of toggles such as enable/disable
flags. -/
structure ModuleParams where
  SendEnabled : Bool
  ReceiveEnabled : Bool
  deriving DecidableEq, Repr

/-- The request `types.QueryDenomTraceRequest{Hash: ...}`. -/
structure QueryDenomTraceRequest where
  Hash : String
  deriving DecidableEq, Repr

/-- The request `types.QueryDenomTracesRequest{Pagination: ...}`; the field is a
pointer. -/
structure QueryDenomTracesRequest where
  Pagination : Option PageRequest
  deriving DecidableEq, Repr

/-- The request `types.QueryParamsRequest{}`. -/
inductive QueryParamsRequest where
  | mk
  deriving DecidableEq, Repr

/-- The request `types.QueryDenomHashRequest{Trace: ...}`. -/
structure QueryDenomHashRequest where
  Trace : String
  deriving DecidableEq, Repr

/-- Modelled from the spec: response of `DenomTrace(hash) -> trace`. -/
structure QueryDenomTraceResponse where
  DenomTrace : DenomTrace
  deriving DecidableEq, Repr

/-- Modelled from the spec: response of
`DenomTraces(pageRequest) -> (traces, pageResponse)`. -/
structure QueryDenomTracesResponse where
  DenomTraces : List DenomTrace
  Pagination : PageResponse
  deriving DecidableEq, Repr

/-- Modelled from the spec: response of `Params() -> ModuleParams`; the handler
reads its field `Params`. -/
structure QueryParamsResponse where
  Params : ModuleParams
  deriving DecidableEq, Repr

/-- Modelled from the spec: response of `DenomHash(traceString) -> hash`. -/
structure QueryDenomHashResponse where
  Hash : String
  deriving DecidableEq, Repr

/-- An account address (`sdk.AccAddress`, a byte string). -/
abbrev AccAddress := List Nat

/-! ## The store behind the query service -/

/-- Modelled from the spec: a registry entry is a pair `(digest, DenomTrace)`;
the digest is kept in its displayed form. -/
structure RegistryEntry where
  digest : String
  trace : DenomTrace
  deriving DecidableEq, Repr

/-- Modelled from the spec: the state the queries are answered from, namely the
registry entries and the single `ModuleParams` instance. -/
structure Store where
  registry : List RegistryEntry
  params : ModuleParams
  deriving DecidableEq, Repr

/-! ## Collaborators -/

/-- A Go `(res, err)` pair: a response pointer that may be nil and an error
that may be nil. -/
abbrev Reply (α : Type) := Option α × Option Error

/-- The `types.QueryClient` interface.  The service behind it is given the
store and hands back the store it leaves, so that a method is free to be
anything at all, a mutating one included. -/
structure QueryClient where
  DenomTrace : QueryDenomTraceRequest → Store → Reply QueryDenomTraceResponse × Store
  DenomTraces : QueryDenomTracesRequest → Store → Reply QueryDenomTracesResponse × Store
  Params : QueryParamsRequest → Store → Reply QueryParamsResponse × Store
  DenomHash : QueryDenomHashRequest → Store → Reply QueryDenomHashResponse × Store

/-- What a handler passes to `clientCtx.PrintProto`. -/
inductive ProtoMsg where
  | denomTrace (res : Option QueryDenomTraceResponse)
  | denomTraces (res : Option QueryDenomTracesResponse)
  | params (p : ModuleParams)
  | denomHash (res : Option QueryDenomHashResponse)
  deriving DecidableEq, Repr

/-- The `client.Context` value: the connection the query client is built on and
the outcome of its two print methods. -/
structure Context where
  conn : QueryClient
  PrintProto : ProtoMsg → Option Error
  PrintString : String → Option Error

/-- The constructor `types.NewQueryClient(clientCtx)`. -/
def NewQueryClient (clientCtx : Context) : QueryClient :=
  clientCtx.conn

/-- The `*cobra.Command` a handler receives, seen through the two calls the
handlers make on it: `client.GetClientQueryContext(cmd)` and
`client.ReadPageRequest(cmd.Flags())`, each a Go `(value, err)` pair. -/
structure Cmd where
  GetClientQueryContext : Context × Option Error
  ReadPageRequest : Option PageRequest × Option Error

/-- The package-level functions used by `escrow-address`:
`types.GetEscrowAddress`, which returns an address and no error, and
`sdk.AccAddress.String`. -/
structure Lib where
  GetEscrowAddress : String → String → AccAddress
  addrString : AccAddress → String

/-! ## Observable calls and runs -/

/-- A request sent through the query client. -/
inductive QueryCall where
  | DenomTrace (req : QueryDenomTraceRequest)
  | DenomTraces (req : QueryDenomTracesRequest)
  | Params (req : QueryParamsRequest)
  | DenomHash (req : QueryDenomHashRequest)
  deriving DecidableEq, Repr

/-- A call of a handler that is observable from outside. -/
inductive Event where
  | query (q : QueryCall)
  | printProto (m : ProtoMsg)
  | printString (s : String)
  deriving DecidableEq, Repr

/-- Whether an event is a query. -/
def Event.isQuery : Event → Bool
  | .query _ => true
  | _ => false

/-- Whether an event is a print. -/
def Event.isPrint : Event → Bool
  | .printProto _ => true
  | .printString _ => true
  | .query _ => false

/-- The run of a handler: the store it leaves, the calls it made in order, and
how it ended. -/
structure Run where
  store : Store
  log : List Event
  result : Result
  deriving DecidableEq, Repr

/-! ## The handlers -/

/-- The handler `RunE` of `GetCmdQueryDenomTrace`. -/
def runDenomTrace (cmd : Cmd) (args : List String) (st : Store) : Run :=
  let clientCtx := cmd.GetClientQueryContext.1
  match cmd.GetClientQueryContext.2 with
  | some err => ⟨st, [], .returned (some err)⟩
  | none =>
    let queryClient := NewQueryClient clientCtx
    match args[0]? with
    | none => ⟨st, [], .panicked (.indexOutOfRange 0 args.length)⟩
    | some hash =>
      let req : QueryDenomTraceRequest := { Hash := hash }
      let out := queryClient.DenomTrace req st
      let res := out.1.1
      match out.1.2 with
      | some err => ⟨out.2, [.query (.DenomTrace req)], .returned (some err)⟩
      | none =>
        ⟨out.2, [.query (.DenomTrace req), .printProto (.denomTrace res)],
          .returned (clientCtx.PrintProto (.denomTrace res))⟩

/-- The handler `RunE` of `GetCmdQueryDenomTraces`. -/
def runDenomTraces (cmd : Cmd) (_ : List String) (st : Store) : Run :=
  let clientCtx := cmd.GetClientQueryContext.1
  match cmd.GetClientQueryContext.2 with
  | some err => ⟨st, [], .returned (some err)⟩
  | none =>
    let queryClient := NewQueryClient clientCtx
    let pageReq := cmd.ReadPageRequest.1
    match cmd.ReadPageRequest.2 with
    | some err => ⟨st, [], .returned (some err)⟩
    | none =>
      let req : QueryDenomTracesRequest := { Pagination := pageReq }
      let out := queryClient.DenomTraces req st
      let res := out.1.1
      match out.1.2 with
      | some err => ⟨out.2, [.query (.DenomTraces req)], .returned (some err)⟩
      | none =>
        ⟨out.2, [.query (.DenomTraces req), .printProto (.denomTraces res)],
          .returned (clientCtx.PrintProto (.denomTraces res))⟩

/-- The handler `RunE` of `GetCmdParams`.  The error of the query is assigned to the blank
identifier, and `res.Params` selects a field through the pointer `res`. -/
def runParams (cmd : Cmd) (_ : List String) (st : Store) : Run :=
  let clientCtx := cmd.GetClientQueryContext.1
  match cmd.GetClientQueryContext.2 with
  | some err => ⟨st, [], .returned (some err)⟩
  | none =>
    let queryClient := NewQueryClient clientCtx
    let out := queryClient.Params .mk st
    match out.1.1 with
    | none => ⟨out.2, [.query (.Params .mk)], .panicked .nilPointerDereference⟩
    | some res =>
      ⟨out.2, [.query (.Params .mk), .printProto (.params res.Params)],
        .returned (clientCtx.PrintProto (.params res.Params))⟩

/-- The handler `RunE` of `GetCmdQueryEscrowAddress`. -/
def runEscrowAddress (L : Lib) (cmd : Cmd) (args : List String) (st : Store) : Run :=
  let clientCtx := cmd.GetClientQueryContext.1
  match cmd.GetClientQueryContext.2 with
  | some err => ⟨st, [], .returned (some err)⟩
  | none =>
    match args[0]? with
    | none => ⟨st, [], .panicked (.indexOutOfRange 0 args.length)⟩
    | some port =>
      match args[1]? with
      | none => ⟨st, [], .panicked (.indexOutOfRange 1 args.length)⟩
      | some channel =>
        let addr := L.GetEscrowAddress port channel
        let text := L.addrString addr ++ "\n"
        ⟨st, [.printString text], .returned (clientCtx.PrintString text)⟩

/-- The handler `RunE` of `GetCmdQueryDenomHash`. -/
def runDenomHash (cmd : Cmd) (args : List String) (st : Store) : Run :=
  let clientCtx := cmd.GetClientQueryContext.1
  match cmd.GetClientQueryContext.2 with
  | some err => ⟨st, [], .returned (some err)⟩
  | none =>
    let queryClient := NewQueryClient clientCtx
    match args[0]? with
    | none => ⟨st, [], .panicked (.indexOutOfRange 0 args.length)⟩
    | some trace =>
      let req : QueryDenomHashRequest := { Trace := trace }
      let out := queryClient.DenomHash req st
      let res := out.1.1
      match out.1.2 with
      | some err => ⟨out.2, [.query (.DenomHash req)], .returned (some err)⟩
      | none =>
        ⟨out.2, [.query (.DenomHash req), .printProto (.denomHash res)],
          .returned (clientCtx.PrintProto (.denomHash res))⟩

/-! ## The commands -/

/-- The validator `cobra.ExactArgs(n)`: an error unless there are exactly `n` arguments. -/
def ExactArgs (n : Nat) (args : List String) : Option Error :=
  if args.length ≠ n then
    some (.other ("accepts " ++ toString n ++ " arg(s), received " ++ toString args.length))
  else none

/-- The validator `cobra.NoArgs`: an error if there is any argument. -/
def NoArgs (args : List String) : Option Error :=
  match args with
  | [] => none
  | a :: _ => some (.other ("unknown command " ++ a))

/-- The fields of a `cobra.Command` that decide its behaviour. -/
structure Command where
  Use : String
  Args : List String → Option Error
  RunE : Cmd → List String → Store → Run

/-- The command built by `GetCmdQueryDenomTrace()`. -/
def GetCmdQueryDenomTrace : Command :=
  { Use := "denom-trace [hash]", Args := ExactArgs 1, RunE := runDenomTrace }

/-- The command built by `GetCmdQueryDenomTraces()`. -/
def GetCmdQueryDenomTraces : Command :=
  { Use := "denom-traces", Args := NoArgs, RunE := runDenomTraces }

/-- The command built by `GetCmdParams()`. -/
def GetCmdParams : Command :=
  { Use := "params", Args := NoArgs, RunE := runParams }

/-- The command built by `GetCmdQueryEscrowAddress()`. -/
def GetCmdQueryEscrowAddress (L : Lib) : Command :=
  { Use := "escrow-address", Args := ExactArgs 2, RunE := runEscrowAddress L }

/-- The command built by `GetCmdQueryDenomHash()`. -/
def GetCmdQueryDenomHash : Command :=
  { Use := "denom-hash [trace]", Args := ExactArgs 1, RunE := runDenomHash }

/-- The five commands of the file. -/
def commands (L : Lib) : List Command :=
  [GetCmdQueryDenomTrace, GetCmdQueryDenomTraces, GetCmdParams,
   GetCmdQueryEscrowAddress L, GetCmdQueryDenomHash]

/-! ## Escrow-address derivation -/

/-- Modelled from the spec: the Hasher, the namespace tag and the
account-identifier width of the Escrow Address Deriver; none of them is among
the sources, and the specification fixes none of them. -/
structure Deriver where
  digest : String → List Nat
  namespaceTag : String
  width : Nat

/-- Modelled from the spec: the seed handed to the digest, the namespace tag
followed by port and channel.  Port and channel are joined by the reserved
separator `/`, the way `types.GetEscrowAddress` joins them
(`fmt.Sprintf("%s/%s", portID, channelID)`). -/
def escrowSeed (D : Deriver) (port channel : String) : String :=
  D.namespaceTag ++ port ++ "/" ++ channel

/-- Modelled from the spec: `types.GetEscrowAddress` is not among the sources.
The address is the digest of the seed truncated to the fixed account-identifier
width.  The call site assigns its single result to `addr`, so the derivation
yields an address for any two strings. -/
def deriveEscrowAddress (D : Deriver) (port channel : String) : AccAddress :=
  (D.digest (escrowSeed D port channel)).take D.width

/-- The package-level functions with the derivation above in the place of
`types.GetEscrowAddress`. -/
def Deriver.lib (D : Deriver) (addrString : AccAddress → String) : Lib :=
  { GetEscrowAddress := deriveEscrowAddress D, addrString := addrString }

/-! ## The registry service -/

/-- Modelled from the spec: the Trace Codec (`decode`, which fails on a string
that is not a canonical trace) and the Hasher composed with `encode` (the
displayed digest of a trace); neither is among the sources. -/
structure Core where
  decode : String → Option DenomTrace
  digest : DenomTrace → String

/-- Modelled from the spec: a program of the core over the external key-value
store.  The store offers three reads (the entry under a digest, the enumeration
of the entries, the parameters) and one write (the insertion of an entry); the
store itself is not among the sources. -/
inductive StoreProg (α : Type) where
  | done (a : α)
  | lookup (digest : String) (k : Option DenomTrace → StoreProg α)
  | scan (k : List RegistryEntry → StoreProg α)
  | getParams (k : ModuleParams → StoreProg α)
  | insert (e : RegistryEntry) (k : StoreProg α)

/-- Modelled from the spec: the run of a program against a store; entries are
kept in insertion order. -/
def StoreProg.run {α : Type} : StoreProg α → Store → α × Store
  | .done a, st => (a, st)
  | .lookup d k, st =>
    (k ((st.registry.find? (fun e => e.digest == d)).map (fun e => e.trace))).run st
  | .scan k, st => (k st.registry).run st
  | .getParams k, st => (k st.params).run st
  | .insert e k, st => k.run { st with registry := st.registry ++ [e] }

/-- The program that ends with `f` applied to the result of `p`. -/
def StoreProg.map {α β : Type} (f : α → β) : StoreProg α → StoreProg β
  | .done a => .done (f a)
  | .lookup d k => .lookup d fun x => (k x).map f
  | .scan k => .scan fun x => (k x).map f
  | .getParams k => .getParams fun x => (k x).map f
  | .insert e k => .insert e (k.map f)

/-- Modelled from the spec: `put(trace) -> Digest`.  If an entry with the digest
exists the stored trace is compared and nothing is written; otherwise the
entry is inserted. -/
def put (C : Core) (t : DenomTrace) : StoreProg (Except Error String) :=
  .lookup (C.digest t) fun found =>
    match found with
    | some stored => if stored = t then .done (.ok (C.digest t)) else .done (.error .CollisionError)
    | none => .insert { digest := C.digest t, trace := t } (.done (.ok (C.digest t)))

/-- Modelled from the spec: `getByHash(digest) -> trace`, failing with
`NotFoundError` if absent. -/
def getByHash (d : String) : StoreProg (Except Error DenomTrace) :=
  .lookup d fun found =>
    match found with
    | some t => .done (.ok t)
    | none => .done (.error .NotFoundError)

/-- Modelled from the spec: `getByTrace(trace) -> digest` recomputes the digest
and confirms presence in the registry, failing with `NotFoundError` if the trace
was never registered. -/
def getByTrace (C : Core) (t : DenomTrace) : StoreProg (Except Error String) :=
  .lookup (C.digest t) fun found =>
    match found with
    | some _ => .done (.ok (C.digest t))
    | none => .done (.error .NotFoundError)

/-- Modelled from the spec: one page of an enumeration in insertion order, at
most `limit` entries from the resume position; the next token is empty when the
enumeration is exhausted. -/
def page (registry : List RegistryEntry) (p : Option PageRequest) :
    List RegistryEntry × PageResponse :=
  match p with
  | none => (registry, { NextKey := [], Total := registry.length })
  | some pr =>
    ((registry.drop pr.Offset).take pr.Limit,
      { NextKey := if pr.Offset + pr.Limit < registry.length then [pr.Offset + pr.Limit] else [],
        Total := if pr.CountTotal then registry.length else 0 })

/-- Modelled from the spec: `list(pageRequest) -> (entries, nextPageToken)`. -/
def list (p : Option PageRequest) : StoreProg (List RegistryEntry × PageResponse) :=
  .scan fun registry => .done (page registry p)

/-- Modelled from the spec: `get() -> ModuleParams` of the Parameter Store. -/
def getModuleParams : StoreProg ModuleParams :=
  .getParams fun ps => .done ps

/-- Modelled from the spec: the width of a displayed digest, 64 hexadecimal
digits. -/
def hashHexWidth : Nat := 64

/-- Modelled from the spec: whether `hash` is a well-formed fixed-width hex
string. -/
def wellFormedHash (hash : String) : Bool :=
  hash.length == hashHexWidth &&
    hash.toList.all fun c =>
      ('0' ≤ c && c ≤ '9') || ('a' ≤ c && c ≤ 'f') || ('A' ≤ c && c ≤ 'F')

/-- The Go `(res, err)` pair of an outcome of the core. -/
def toReply {α β : Type} (f : α → β) : Except Error α → Reply β
  | .ok a => (some (f a), none)
  | .error e => (none, some e)

/-- Modelled from the spec: `DenomTrace(hash) -> trace`, which fails with
`InvalidArgument` if `hash` is not a well-formed fixed-width hex string and with
`NotFoundError` if it is unregistered. -/
def serveDenomTrace (req : QueryDenomTraceRequest) : StoreProg (Reply QueryDenomTraceResponse) :=
  if wellFormedHash req.Hash then
    (getByHash req.Hash).map (toReply fun t => { DenomTrace := t })
  else .done (none, some .InvalidArgument)

/-- Modelled from the spec: `DenomTraces(pageRequest) -> (traces, pageResponse)`. -/
def serveDenomTraces (req : QueryDenomTracesRequest) :
    StoreProg (Reply QueryDenomTracesResponse) :=
  (list req.Pagination).map fun pg =>
    (some { DenomTraces := pg.1.map (fun e => e.trace), Pagination := pg.2 }, none)

/-- Modelled from the spec: `Params() -> ModuleParams`, the current snapshot. -/
def serveParams (_ : QueryParamsRequest) : StoreProg (Reply QueryParamsResponse) :=
  getModuleParams.map fun ps => (some { Params := ps }, none)

/-- Modelled from the spec: `DenomHash(traceString) -> hash`, which fails with
`MalformedTraceError` on undecodable input and with `NotFoundError` if the
decoded trace has no registry entry. -/
def serveDenomHash (C : Core) (req : QueryDenomHashRequest) :
    StoreProg (Reply QueryDenomHashResponse) :=
  match C.decode req.Trace with
  | none => .done (none, some .MalformedTraceError)
  | some t => (getByTrace C t).map (toReply fun d => { Hash := d })

/-- Modelled from the spec: the query service of section 6 on top of the
registry and the parameter store, reached through the query client; the service
is not among the sources. -/
def registryClient (C : Core) : QueryClient :=
  { DenomTrace := fun req st => (serveDenomTrace req).run st
    DenomTraces := fun req st => (serveDenomTraces req).run st
    Params := fun req st => (serveParams req).run st
    DenomHash := fun req st => (serveDenomHash C req).run st }

/-- A deriver with a transparent digest (the code points of the seed). -/
def sampleDeriver : Deriver :=
  { digest := fun s => s.toList.map Char.toNat, namespaceTag := "ics20-1", width := 32 }

/-- Addresses displayed as the decimal list of their bytes. -/
def sampleAddrString (a : AccAddress) : String :=
  toString a

/-- The package-level functions over `sampleDeriver`. -/
def sampleLib : Lib :=
  sampleDeriver.lib sampleAddrString

/-- A codec that reads every non-empty string as a base denomination without
hops and rejects the empty string, and a digest that displays the base
denomination. -/
def sampleCore : Core :=
  { decode := fun s => if s = "" then none else some { hops := [], baseDenom := s }
    digest := fun t => t.baseDenom }

/-- A store with one registered trace. -/
def sampleStore : Store :=
  { registry := [{ digest := "uatom", trace := { hops := [], baseDenom := "uatom" } }]
    params := { SendEnabled := true, ReceiveEnabled := true } }

/-- A store with no registered trace and transfers disabled. -/
def emptyStore : Store :=
  { registry := [], params := { SendEnabled := false, ReceiveEnabled := false } }

/-- A client context over the given connection whose print methods succeed. -/
def printingContext (q : QueryClient) : Context :=
  { conn := q, PrintProto := fun _ => none, PrintString := fun _ => none }

/-- A client context over the given connection whose output cannot be written. -/
def closedOutputContext (q : QueryClient) : Context :=
  { conn := q
    PrintProto := fun _ => some (.other "write: broken pipe")
    PrintString := fun _ => some (.other "write: broken pipe") }

/-- A connection on which every query fails and yields no response. -/
def refusedClient : QueryClient :=
  { DenomTrace := fun _ st => ((none, some (.other "connection refused")), st)
    DenomTraces := fun _ st => ((none, some (.other "connection refused")), st)
    Params := fun _ st => ((none, some (.other "connection refused")), st)
    DenomHash := fun _ st => ((none, some (.other "connection refused")), st) }

/-- A connection whose `Params` method yields a response together with an
error; the other methods are those of the registry service. -/
def warningClient : QueryClient :=
  { registryClient sampleCore with
    Params := fun _ st =>
      ((some { Params := st.params }, some (.other "deadline exceeded")), st) }

/-- A command whose client context is obtained over the given connection, with
working output and a page request of ten entries. -/
def sampleCmd (q : QueryClient) : Cmd :=
  { GetClientQueryContext := (printingContext q, none)
    ReadPageRequest :=
      (some { Key := [], Offset := 0, Limit := 10, CountTotal := true, Reverse := false }, none) }

/-- A command whose client context is obtained over the registry service but
whose output cannot be written. -/
def closedOutputCmd : Cmd :=
  { GetClientQueryContext := (closedOutputContext (registryClient sampleCore), none)
    ReadPageRequest := (none, none) }

/-- A well-formed hash under which no trace is registered. -/
def unregisteredHash : String :=
  "deadbeefdeadbeefdeadbeefdeadbeefdeadbeefdeadbeefdeadbeefdeadbeef"

/-- A well-formed hash under which `tracedStore` holds a trace. -/
def registeredHash : String :=
  "27394fb092d2eccd56123c74f36e4c1f926001ceada9ca97ea622b25f41e5eb2"

/-- A store whose registry holds the trace `transfer/channel-0/uatom` under
`registeredHash`. -/
def tracedStore : Store :=
  { registry :=
      [{ digest := registeredHash
         trace := { hops := [("transfer", "channel-0")], baseDenom := "uatom" } }]
    params := { SendEnabled := true, ReceiveEnabled := true } }

/-- A command whose client context cannot be obtained. -/
def noContextCmd : Cmd :=
  { GetClientQueryContext :=
      (printingContext (registryClient sampleCore), some (.other "no node configured"))
    ReadPageRequest := (none, none) }

/-- A command whose page-request flags cannot be read. -/
def badFlagsCmd : Cmd :=
  { GetClientQueryContext := (printingContext (registryClient sampleCore), none)
    ReadPageRequest := (none, some (.other "invalid page flags")) }

/-! ## Shared lemmas -/

/-- The validator `cobra.ExactArgs(n)` accepts exactly the argument lists of length `n`. -/
theorem ExactArgs_eq_none_iff (n : Nat) (args : List String) :
    ExactArgs n args = none ↔ args.length = n := by
  unfold ExactArgs
  by_cases h : args.length = n <;> simp [h]

/-- The validator `cobra.NoArgs` accepts exactly the empty argument list. -/
theorem NoArgs_eq_none_iff (args : List String) : NoArgs args = none ↔ args = [] := by
  cases args <;> simp [NoArgs]

/-- Membership in the list of the five commands. -/
theorem mem_commands_iff (L : Lib) (c : Command) :
    c ∈ commands L ↔
      c = GetCmdQueryDenomTrace ∨ c = GetCmdQueryDenomTraces ∨ c = GetCmdParams ∨
        c = GetCmdQueryEscrowAddress L ∨ c = GetCmdQueryDenomHash := by
  simp [commands]

/-- The write of the model is a real one: `put` of a trace whose digest is not
registered adds the entry. -/
theorem put_inserts_when_absent (C : Core) (t : DenomTrace) (st : Store)
    (h : st.registry.find? (fun e => e.digest == C.digest t) = none) :
    ((put C t).run st).2.registry = st.registry ++ [{ digest := C.digest t, trace := t }] := by
  simp [put, StoreProg.run, h]

/-- In denom-trace, denom-traces, escrow-address and denom-hash every error of a
collaborator call is returned: the error of the client-context acquisition, of
the page-request reading and of the query. -/
theorem sibling_handlers_return_errors (L : Lib) (cmd : Cmd) (args : List String) (a : String)
    (st : Store) (e : Error) :
    (cmd.GetClientQueryContext.2 = some e →
      (runDenomTrace cmd args st).result = .returned (some e) ∧
        (runDenomTraces cmd args st).result = .returned (some e) ∧
        (runParams cmd args st).result = .returned (some e) ∧
        (runEscrowAddress L cmd args st).result = .returned (some e) ∧
        (runDenomHash cmd args st).result = .returned (some e)) ∧
    (cmd.GetClientQueryContext.2 = none → cmd.ReadPageRequest.2 = some e →
      (runDenomTraces cmd args st).result = .returned (some e)) ∧
    (cmd.GetClientQueryContext.2 = none →
      ((NewQueryClient cmd.GetClientQueryContext.1).DenomTrace { Hash := a } st).1.2 = some e →
      (runDenomTrace cmd [a] st).result = .returned (some e)) ∧
    (cmd.GetClientQueryContext.2 = none → cmd.ReadPageRequest.2 = none →
      ((NewQueryClient cmd.GetClientQueryContext.1).DenomTraces
        { Pagination := cmd.ReadPageRequest.1 } st).1.2 = some e →
      (runDenomTraces cmd args st).result = .returned (some e)) ∧
    (cmd.GetClientQueryContext.2 = none →
      ((NewQueryClient cmd.GetClientQueryContext.1).DenomHash { Trace := a } st).1.2 = some e →
      (runDenomHash cmd [a] st).result = .returned (some e)) := by
  refine ⟨?_, ?_, ?_, ?_, ?_⟩
  · intro h
    simp [runDenomTrace, runDenomTraces, runParams, runEscrowAddress, runDenomHash, h]
  · intro h hp
    simp [runDenomTraces, h, hp]
  · intro h hq
    simp [runDenomTrace, h, hq]
  · intro h hp hq
    simp [runDenomTraces, h, hp, hq]
  · intro h hq
    simp [runDenomHash, h, hq]

/-! ## The params command -/

/-- C2: at a `Params` query that fails and yields no response, the handler of
the params command does not complete: it selects the field `Params` through
the nil response and panics, having printed nothing. -/
theorem params_panics_on_absent_response :
    (runParams (sampleCmd refusedClient) [] sampleStore).result
        = .panicked .nilPointerDereference ∧
      (runParams (sampleCmd refusedClient) [] sampleStore).log
        = [.query (.Params .mk)] := by
  constructor <;> rfl

/-- C3: the handler of the params command does not return the error of its
query.  At a `Params` query that fails with an error and no response the
handler does not return that error (it panics); at a `Params` query that
yields an error next to a response it prints the parameters and returns nil. -/
theorem params_discards_query_error :
    (((NewQueryClient (sampleCmd refusedClient).GetClientQueryContext.1).Params
          .mk emptyStore).1.2 = some (.other "connection refused") ∧
        (runParams (sampleCmd refusedClient) [] emptyStore).result
          ≠ .returned (some (.other "connection refused"))) ∧
      (((NewQueryClient (sampleCmd warningClient).GetClientQueryContext.1).Params
          .mk sampleStore).1.2 = some (.other "deadline exceeded") ∧
        (runParams (sampleCmd warningClient) [] sampleStore).result = .returned none ∧
        (runParams (sampleCmd warningClient) [] sampleStore).log
          = [.query (.Params .mk), .printProto (.params sampleStore.params)]) := by
  refine ⟨⟨rfl, by decide⟩, rfl, rfl, rfl⟩

/-! ## The denom-trace command -/

/-- C7, as stated, fails: when the client context cannot be obtained, the
denom-trace command sends no request at all for the hash it is given; it
returns the error of the acquisition. -/
theorem denom_trace_sends_nothing_without_context :
    (runDenomTrace noContextCmd [unregisteredHash] tracedStore).log = [] ∧
      (runDenomTrace noContextCmd [unregisteredHash] tracedStore).result
        = .returned (some (.other "no node configured")) := by
  constructor <;> rfl

/-- C7, amended: for every hash string `h`, with the client context obtained, the
denom-trace command sends exactly one request, a DenomTrace request whose
`Hash` is `h`; when the query succeeds the only thing printed is the response
the query returned, and when the query fails with `NotFoundError` the command
returns `NotFoundError` and prints nothing. -/
theorem denom_trace_forwards_hash (cmd : Cmd) (h : String) (st : Store)
    (hctx : cmd.GetClientQueryContext.2 = none) :
    (runDenomTrace cmd [h] st).log.filter Event.isQuery
        = [.query (.DenomTrace { Hash := h })] ∧
      ((runDenomTrace cmd [h] st).log.head? = some (.query (.DenomTrace { Hash := h }))) ∧
      (((NewQueryClient cmd.GetClientQueryContext.1).DenomTrace { Hash := h } st).1.2 = none →
        (runDenomTrace cmd [h] st).log.filter Event.isPrint
          = [.printProto (.denomTrace
              ((NewQueryClient cmd.GetClientQueryContext.1).DenomTrace { Hash := h } st).1.1)]) ∧
      (((NewQueryClient cmd.GetClientQueryContext.1).DenomTrace { Hash := h } st).1.2
          = some .NotFoundError →
        (runDenomTrace cmd [h] st).result = .returned (some .NotFoundError) ∧
          (runDenomTrace cmd [h] st).log.filter Event.isPrint = []) := by
  unfold runDenomTrace
  simp only [hctx, List.getElem?_cons_zero]
  cases hq : ((NewQueryClient cmd.GetClientQueryContext.1).DenomTrace { Hash := h } st).1.2
    <;> simp [Event.isQuery, Event.isPrint]

/-- Witness of amended C7 on the registry service: a well-formed hash that is
not registered, for which `NotFoundError` is returned and nothing is printed,
and a registered one, for which the stored trace is printed. -/
theorem denom_trace_forwards_hash_witness :
    ((runDenomTrace (sampleCmd (registryClient sampleCore)) [unregisteredHash]
          tracedStore).result = .returned (some .NotFoundError) ∧
      (runDenomTrace (sampleCmd (registryClient sampleCore)) [unregisteredHash]
          tracedStore).log.filter Event.isPrint = []) ∧
    (runDenomTrace (sampleCmd (registryClient sampleCore)) [registeredHash]
          tracedStore).log.filter Event.isPrint
      = [.printProto (.denomTrace (some { DenomTrace :=
          { hops := [("transfer", "channel-0")], baseDenom := "uatom" } }))] :=
  ⟨(denom_trace_forwards_hash (sampleCmd (registryClient sampleCore)) unregisteredHash
      tracedStore rfl).2.2.2 (by decide),
    (denom_trace_forwards_hash (sampleCmd (registryClient sampleCore)) registeredHash
      tracedStore rfl).2.2.1 (by decide)⟩

/-! ## The denom-hash command -/

/-- C6, as stated, fails: with the client context obtained and a DenomHash query
that succeeds, the command still returns an error when the response cannot be
printed. -/
theorem denom_hash_error_without_query_failure :
    closedOutputCmd.GetClientQueryContext.2 = none ∧
      ((NewQueryClient closedOutputCmd.GetClientQueryContext.1).DenomHash
          { Trace := "uatom" } sampleStore).1.2 = none ∧
      (runDenomHash closedOutputCmd ["uatom"] sampleStore).result
        = .returned (some (.other "write: broken pipe")) := by
  refine ⟨rfl, by decide, by decide⟩

/-- C6, amended: for every trace string `s`, with the client context obtained,
the denom-hash command sends exactly one request, a DenomHash request whose
`Trace` is `s`.  When that query fails the command returns the error of the
query (so `MalformedTraceError` and `NotFoundError` are passed on) and prints
nothing; when it succeeds the command prints the response and returns what
the printer returns.  It returns an error exactly when the query fails or the
printing of the response fails. -/
theorem denom_hash_forwards_trace (cmd : Cmd) (s : String) (st : Store)
    (hctx : cmd.GetClientQueryContext.2 = none) :
    (runDenomHash cmd [s] st).log.filter Event.isQuery
        = [.query (.DenomHash { Trace := s })] ∧
      (∀ e, ((NewQueryClient cmd.GetClientQueryContext.1).DenomHash { Trace := s } st).1.2
          = some e →
        (runDenomHash cmd [s] st).result = .returned (some e) ∧
          (runDenomHash cmd [s] st).log.filter Event.isPrint = []) ∧
      (((NewQueryClient cmd.GetClientQueryContext.1).DenomHash { Trace := s } st).1.2 = none →
        (runDenomHash cmd [s] st).result
            = .returned (cmd.GetClientQueryContext.1.PrintProto (.denomHash
                ((NewQueryClient cmd.GetClientQueryContext.1).DenomHash { Trace := s } st).1.1)) ∧
          (runDenomHash cmd [s] st).log.filter Event.isPrint
            = [.printProto (.denomHash
                ((NewQueryClient cmd.GetClientQueryContext.1).DenomHash { Trace := s } st).1.1)]) ∧
      ((∃ e, (runDenomHash cmd [s] st).result = .returned (some e)) ↔
        (((NewQueryClient cmd.GetClientQueryContext.1).DenomHash { Trace := s } st).1.2 ≠ none ∨
          (((NewQueryClient cmd.GetClientQueryContext.1).DenomHash { Trace := s } st).1.2 = none ∧
            cmd.GetClientQueryContext.1.PrintProto (.denomHash
              ((NewQueryClient cmd.GetClientQueryContext.1).DenomHash { Trace := s } st).1.1)
              ≠ none))) := by
  unfold runDenomHash
  simp only [hctx, List.getElem?_cons_zero]
  cases hq : ((NewQueryClient cmd.GetClientQueryContext.1).DenomHash { Trace := s } st).1.2
  · simp [Event.isQuery, Event.isPrint, Option.ne_none_iff_exists']
  · simp [Event.isQuery, Event.isPrint]

/-- Witness of amended C6 on the registry service: a trace that is not
registered, a trace the codec rejects, and a registered trace whose hash is
printed. -/
theorem denom_hash_forwards_trace_witness :
    ((runDenomHash (sampleCmd (registryClient sampleCore)) ["transfer/channel-0/uatom"]
          emptyStore).result = .returned (some .NotFoundError) ∧
      (runDenomHash (sampleCmd (registryClient sampleCore)) ["transfer/channel-0/uatom"]
          emptyStore).log.filter Event.isPrint = []) ∧
    ((runDenomHash (sampleCmd (registryClient sampleCore)) [""] sampleStore).result
          = .returned (some .MalformedTraceError) ∧
      (runDenomHash (sampleCmd (registryClient sampleCore)) [""] sampleStore).log.filter
          Event.isPrint = []) ∧
    ((runDenomHash (sampleCmd (registryClient sampleCore)) ["uatom"] sampleStore).result
          = .returned none ∧
      (runDenomHash (sampleCmd (registryClient sampleCore)) ["uatom"] sampleStore).log.filter
          Event.isPrint = [.printProto (.denomHash (some { Hash := "uatom" }))]) :=
  ⟨(denom_hash_forwards_trace (sampleCmd (registryClient sampleCore))
      "transfer/channel-0/uatom" emptyStore rfl).2.1 .NotFoundError (by decide),
    (denom_hash_forwards_trace (sampleCmd (registryClient sampleCore))
      "" sampleStore rfl).2.1 .MalformedTraceError (by decide),
    (denom_hash_forwards_trace (sampleCmd (registryClient sampleCore))
      "uatom" sampleStore rfl).2.2.1 (by decide)⟩

/-! ## The denom-traces command -/

/-- C9: with the client context obtained, if reading the page request fails the
denom-traces command returns that error and sends no query; otherwise it sends
exactly one request, a DenomTraces request whose `Pagination` is the page
request as read, and when the query succeeds the only thing printed is the
response the query returned. -/
theorem denom_traces_forwards_page_request (cmd : Cmd) (args : List String) (st : Store)
    (hctx : cmd.GetClientQueryContext.2 = none) :
    (∀ e, cmd.ReadPageRequest.2 = some e →
        (runDenomTraces cmd args st).result = .returned (some e) ∧
          (runDenomTraces cmd args st).log = [] ∧
          (runDenomTraces cmd args st).store = st) ∧
      (cmd.ReadPageRequest.2 = none →
        (runDenomTraces cmd args st).log.filter Event.isQuery
            = [.query (.DenomTraces { Pagination := cmd.ReadPageRequest.1 })] ∧
          (((NewQueryClient cmd.GetClientQueryContext.1).DenomTraces
              { Pagination := cmd.ReadPageRequest.1 } st).1.2 = none →
            (runDenomTraces cmd args st).log.filter Event.isPrint
              = [.printProto (.denomTraces
                  ((NewQueryClient cmd.GetClientQueryContext.1).DenomTraces
                    { Pagination := cmd.ReadPageRequest.1 } st).1.1)])) := by
  unfold runDenomTraces
  simp only [hctx]
  constructor
  · intro e he
    simp [he]
  · intro hp
    simp only [hp]
    cases hq : ((NewQueryClient cmd.GetClientQueryContext.1).DenomTraces
        { Pagination := cmd.ReadPageRequest.1 } st).1.2
      <;> simp [Event.isQuery, Event.isPrint]

/-- Witness of C9: page-request flags that cannot be read, and a page request
of ten entries that reaches the registry service unchanged. -/
theorem denom_traces_forwards_page_request_witness :
    ((runDenomTraces badFlagsCmd [] sampleStore).result
          = .returned (some (.other "invalid page flags")) ∧
        (runDenomTraces badFlagsCmd [] sampleStore).log = [] ∧
        (runDenomTraces badFlagsCmd [] sampleStore).store = sampleStore) ∧
      (runDenomTraces (sampleCmd (registryClient sampleCore)) [] sampleStore).log.filter
          Event.isQuery
        = [.query (.DenomTraces ⟨some
            { Key := [], Offset := 0, Limit := 10, CountTotal := true, Reverse := false }⟩)] ∧
      (runDenomTraces (sampleCmd (registryClient sampleCore)) [] sampleStore).log.filter
          Event.isPrint
        = [.printProto (.denomTraces (some
            { DenomTraces := [{ hops := [], baseDenom := "uatom" }],
              Pagination := { NextKey := [], Total := 1 } }))] :=
  ⟨(denom_traces_forwards_page_request badFlagsCmd [] sampleStore rfl).1
      (.other "invalid page flags") rfl,
    ((denom_traces_forwards_page_request (sampleCmd (registryClient sampleCore)) []
      sampleStore rfl).2 rfl).1,
    ((denom_traces_forwards_page_request (sampleCmd (registryClient sampleCore)) []
      sampleStore rfl).2 rfl).2 rfl⟩

/-! ## The escrow-address command -/

/-- C1, as stated, fails: with an empty port and a channel that contains the
separator, the escrow-address command returns nil and prints an address. -/
theorem escrow_address_accepts_malformed_identifiers :
    (runEscrowAddress sampleLib (sampleCmd refusedClient) ["", "channel/0"] sampleStore).result
        = .returned none ∧
      (runEscrowAddress sampleLib (sampleCmd refusedClient) ["", "channel/0"] sampleStore).log
        = [.printString
            (sampleLib.addrString (sampleLib.GetEscrowAddress "" "channel/0") ++ "\n")] := by
  constructor <;> rfl

/-- C1, amended: for every (port, channel) argument pair in which port or
channel is the empty string or contains the separator character, the
escrow-address command, with the client context obtained, makes no check of
the identifiers: it prints the string form of the address derived from the
pair, followed by a newline, and returns what the printer returns. -/
theorem escrow_address_makes_no_identifier_check (L : Lib) (cmd : Cmd) (port channel : String)
    (st : Store) (hctx : cmd.GetClientQueryContext.2 = none)
    (_hbad : port = "" ∨ channel = "" ∨ '/' ∈ port.toList ∨ '/' ∈ channel.toList) :
    (runEscrowAddress L cmd [port, channel] st).log
        = [.printString (L.addrString (L.GetEscrowAddress port channel) ++ "\n")] ∧
      (runEscrowAddress L cmd [port, channel] st).result
        = .returned (cmd.GetClientQueryContext.1.PrintString
            (L.addrString (L.GetEscrowAddress port channel) ++ "\n")) := by
  unfold runEscrowAddress
  simp [hctx]

/-- Witness of amended C1: an empty port and a channel with a separator. -/
theorem escrow_address_makes_no_identifier_check_witness :
    (runEscrowAddress sampleLib (sampleCmd refusedClient) ["", "channel/0"] emptyStore).log
        = [.printString
            (sampleLib.addrString (sampleLib.GetEscrowAddress "" "channel/0") ++ "\n")] ∧
      (runEscrowAddress sampleLib (sampleCmd refusedClient) ["", "channel/0"] emptyStore).result
        = .returned none :=
  escrow_address_makes_no_identifier_check sampleLib (sampleCmd refusedClient) "" "channel/0"
    emptyStore rfl (Or.inl rfl)

/-- C5: for every (port, channel), any two runs of the escrow-address command
in which the client context is obtained make the same observable calls,
whatever the query clients and the stores are: one print of the string form of
`GetEscrowAddress(port, channel)` followed by one newline, and no query; the
store is left as it was. -/
theorem escrow_address_deterministic (L : Lib) (port channel : String)
    (cmd₁ cmd₂ : Cmd) (st₁ st₂ : Store)
    (h₁ : cmd₁.GetClientQueryContext.2 = none) (h₂ : cmd₂.GetClientQueryContext.2 = none) :
    (runEscrowAddress L cmd₁ [port, channel] st₁).log
        = [.printString (L.addrString (L.GetEscrowAddress port channel) ++ "\n")] ∧
      (runEscrowAddress L cmd₂ [port, channel] st₂).log
        = (runEscrowAddress L cmd₁ [port, channel] st₁).log ∧
      (runEscrowAddress L cmd₁ [port, channel] st₁).log.filter Event.isQuery = [] ∧
      (runEscrowAddress L cmd₂ [port, channel] st₂).log.filter Event.isQuery = [] ∧
      (runEscrowAddress L cmd₁ [port, channel] st₁).store = st₁ ∧
      (runEscrowAddress L cmd₂ [port, channel] st₂).store = st₂ := by
  unfold runEscrowAddress
  simp [h₁, h₂, Event.isQuery]

/-- Witness of C5: one run against the registry service over a store with an
entry, one run against a refused connection over an empty store. -/
theorem escrow_address_deterministic_witness :
    (runEscrowAddress sampleLib (sampleCmd refusedClient) ["transfer", "channel-0"]
        emptyStore).log
      = (runEscrowAddress sampleLib (sampleCmd (registryClient sampleCore))
          ["transfer", "channel-0"] sampleStore).log :=
  (escrow_address_deterministic sampleLib "transfer" "channel-0"
    (sampleCmd (registryClient sampleCore)) (sampleCmd refusedClient)
    sampleStore emptyStore rfl rfl).2.1

/-! ## Argument counts -/

/-- C10: the declared validators accept exactly one argument for denom-trace
and denom-hash, exactly two for escrow-address and none for denom-traces and
params; and for each of the five commands, on an argument list its validator
accepts, the handler never ends in an index-out-of-range panic. -/
theorem validated_args_within_bounds (L : Lib) (c : Command) (hc : c ∈ commands L)
    (cmd : Cmd) (args : List String) (st : Store) (hv : c.Args args = none) :
    ((GetCmdQueryDenomTrace.Args args = none ↔ args.length = 1) ∧
      (GetCmdQueryDenomHash.Args args = none ↔ args.length = 1) ∧
      ((GetCmdQueryEscrowAddress L).Args args = none ↔ args.length = 2) ∧
      (GetCmdQueryDenomTraces.Args args = none ↔ args.length = 0) ∧
      (GetCmdParams.Args args = none ↔ args.length = 0)) ∧
    ∀ i n, (c.RunE cmd args st).result ≠ .panicked (.indexOutOfRange i n) := by
  refine ⟨⟨ExactArgs_eq_none_iff 1 args, ExactArgs_eq_none_iff 1 args,
    ExactArgs_eq_none_iff 2 args, ?_, ?_⟩, ?_⟩
  · simp [GetCmdQueryDenomTraces, NoArgs_eq_none_iff]
  · simp [GetCmdParams, NoArgs_eq_none_iff]
  intro i n
  rcases (mem_commands_iff L c).1 hc with rfl | rfl | rfl | rfl | rfl
  · have hlen : args.length = 1 := (ExactArgs_eq_none_iff 1 args).1 hv
    obtain ⟨a, rfl⟩ := List.length_eq_one.1 hlen
    simp only [GetCmdQueryDenomTrace, runDenomTrace, List.getElem?_cons_zero]
    split
    · simp
    · split <;> simp
  · simp only [GetCmdQueryDenomTraces, runDenomTraces]
    split
    · simp
    · split
      · simp
      · split <;> simp
  · simp only [GetCmdParams, runParams]
    split
    · simp
    · split <;> simp
  · have hlen : args.length = 2 := (ExactArgs_eq_none_iff 2 args).1 hv
    obtain ⟨a, b, rfl⟩ := List.length_eq_two.1 hlen
    simp only [GetCmdQueryEscrowAddress, runEscrowAddress]
    split <;> simp
  · have hlen : args.length = 1 := (ExactArgs_eq_none_iff 1 args).1 hv
    obtain ⟨a, rfl⟩ := List.length_eq_one.1 hlen
    simp only [GetCmdQueryDenomHash, runDenomHash, List.getElem?_cons_zero]
    split
    · simp
    · split <;> simp

/-- Witness of C10: escrow-address with its two arguments. -/
theorem validated_args_within_bounds_witness :
    (GetCmdQueryEscrowAddress sampleLib).Args ["transfer", "channel-0"] = none ∧
      ∀ i n, ((GetCmdQueryEscrowAddress sampleLib).RunE (sampleCmd refusedClient)
        ["transfer", "channel-0"] sampleStore).result ≠ .panicked (.indexOutOfRange i n) :=
  ⟨by decide,
    (validated_args_within_bounds sampleLib (GetCmdQueryEscrowAddress sampleLib)
      ((mem_commands_iff sampleLib _).2 (Or.inr (Or.inr (Or.inr (Or.inl rfl)))))
      (sampleCmd refusedClient) ["transfer", "channel-0"] sampleStore (by decide)).2⟩

/-! ## Read-only commands -/

end Transfer
